import Mathlib

/-!
Verification of the ccworld-ap-bridge ActivityPub bridge.

Shallow embedding of the Go sources:
* `src/x/activitypub/model.go`        — data model structures
* `src/x/activitypub/repository.go`   — database repository operations and the
  HTTP handlers (`Inbox`, `CreateEntity`, `GetEntityID`)
* `src/x/activitypub/convertfunc.go`  — `MessageToNote` / `NoteToMessage`
* `src/x/activitypub/client.go`       — `ResolveActor` link selection
* `src/unnamed/part_000`              — `ApObjectReference` repository operations

External collaborators (the CC `message`, `association`, `entity` services,
HTTP fetches of remote persons, signing) are modelled as oracle functions in an
`Env` record; the relational tables live in a `DB` record; outbound side
effects (accepts, associations, message posts/deletes) are an explicit trace.
A Go `panic` (unchecked type assertion, out-of-range index) is modelled as a
`none` result of the handler.
-/

namespace CCAP

/-! ## Data model (src/x/activitypub/model.go) -/

/-- `Icon` struct of model.go. -/
structure Icon where
  type : String := ""
  mediaType : String := ""
  url : String := ""
deriving DecidableEq, Repr, Inhabited

/-- `Tag` struct of model.go. -/
structure ActTag where
  type : String := ""
  id : String := ""
  name : String := ""
  icon : Icon := {}
deriving DecidableEq, Repr, Inhabited

/-- `Attachment` struct of model.go. -/
structure Attachment where
  type : String := ""
  mediaType : String := ""
  url : String := ""
deriving DecidableEq, Repr, Inhabited

/-- `Person` struct of model.go (fields the handlers read). -/
structure Person where
  id : String := ""
  inbox : String := ""
  preferredUsername : String := ""
  name : String := ""
  summary : String := ""
  url : String := ""
  icon : Icon := {}
deriving DecidableEq, Repr, Inhabited

/-- `Note` struct of model.go.  Go's `Context`/`Object` fields are
`interface{}`; the code only ever stores strings there. -/
structure Note where
  context : String := ""
  type : String := ""
  id : String := ""
  attributedTo : String := ""
  inReplyTo : String := ""
  quoteUrl : String := ""
  content : String := ""
  published : String := ""
  toRecipients : List String := []
  tag : List ActTag := []
  attachment : List Attachment := []
  object : String := ""
deriving DecidableEq, Repr, Inhabited

/-- `ApEntity` db model. -/
structure ApEntity where
  id : String := ""
  ccid : String := ""
  publickey : String := ""
  privatekey : String := ""
  homeStream : String := ""
  notificationStream : String := ""
  followStream : String := ""
deriving DecidableEq, Repr, Inhabited

/-- `ApFollower` db model (AP → CC); unique on
`(publisherUserID, subscriberPersonURL)` and on the `id` primary key. -/
structure ApFollower where
  id : String := ""
  subscriberPersonURL : String := ""
  publisherUserID : String := ""
  subscriberInbox : String := ""
deriving DecidableEq, Repr, Inhabited

/-- `ApFollow` db model (CC → AP). -/
structure ApFollow where
  id : String := ""
  accepted : Bool := false
  publisherPersonURL : String := ""
  subscriberUserID : String := ""
deriving DecidableEq, Repr, Inhabited

/-- `ApObjectReference` db model: primary key `apObjectID`. -/
structure ApObjectReference where
  apObjectID : String := ""
  ccObjectID : String := ""
deriving DecidableEq, Repr, Inhabited

/-- `WebFingerLink` struct of model.go. -/
structure WebFingerLink where
  rel : String := ""
  type : String := ""
  href : String := ""
deriving DecidableEq, Repr, Inhabited

/-- `WebFinger` struct of model.go. -/
structure WebFinger where
  subject : String := ""
  links : List WebFingerLink := []
deriving DecidableEq, Repr, Inhabited

/-! ## CC-side signed objects (parsed payloads)

The Go code JSON-unmarshals a message payload into `message.SignedObject`
and then reads dynamic map entries (`body["body"].(string)` etc.).  We model
the parsed payload directly: an `Option` field is `none` when the JSON entry
is absent or not of the asserted type. -/

/-- The `meta` map of a parsed CC signed object (entry the code reads). -/
structure MetaMap where
  apObjectRef : Option String := none
deriving DecidableEq, Repr, Inhabited

/-- The `body` map of a parsed CC signed object (entries the code reads).
`emojis` is the `name → {imageURL}` map, kept as an association list
(Go map iteration order is arbitrary; no claim depends on it). -/
structure SOBody where
  body : Option String := none
  replyToMessageId : Option String := none
  rerouteMessageId : Option String := none
  emojis : Option (List (String × Option String)) := none
deriving DecidableEq, Repr, Inhabited

/-- A parsed `message.SignedObject`.  `signedAt` is kept as the already
RFC3339-formatted string. -/
structure SignedObject where
  schema : String := ""
  body : Option SOBody := none
  meta : Option MetaMap := none
  signedAt : String := ""
deriving DecidableEq, Repr, Inhabited

/-- A CC message as returned by the `message` service: `ID`, `Author`,
and its payload (`none` models an unmarshal failure). -/
structure CCMsg where
  id : String := ""
  author : String := ""
  payload : Option SignedObject := none
deriving DecidableEq, Repr, Inhabited

/-! ## Inbound activity objects

`Object.Object` in Go is `interface{}`: sometimes a JSON string, sometimes a
nested JSON object.  `ObjMap` models a nested object by the entries the
dispatcher reads (each `none` when absent / not a string) together with the
`Note` projection the Create branch obtains by re-marshalling. -/

/-- The nested-JSON-object shape of `object.Object`. -/
structure ObjMap where
  typeVal : Option String := none
  idVal : Option String := none
  actorVal : Option String := none
  objectVal : Option String := none
  noteVal : Note := {}
deriving DecidableEq, Repr, Inhabited

/-- A JSON value sitting in the `object` field of an inbound activity. -/
inductive JVal where
  | null
  | str (s : String)
  | map (m : ObjMap)
deriving DecidableEq, Repr, Inhabited

/-- The bound inbound `Object` (fields the `Inbox` handler reads).
`tag` distinguishes a `nil` Go slice (`none`) from a present-but-empty
slice (`some []`). -/
structure InObject where
  type : String := ""
  id : String := ""
  actor : String := ""
  object : JVal := .null
  tag : Option (List ActTag) := none
deriving DecidableEq, Repr, Inhabited

/-! ## Schema URIs -/

def noteSchema : String :=
  "https://raw.githubusercontent.com/totegamma/concurrent-schemas/master/messages/note/0.0.1.json"

def replySchema : String :=
  "https://raw.githubusercontent.com/totegamma/concurrent-schemas/master/messages/reply/0.0.1.json"

def rerouteSchema : String :=
  "https://raw.githubusercontent.com/totegamma/concurrent-schemas/master/messages/reroute/0.0.1.json"

def likeAssocSchema : String :=
  "https://raw.githubusercontent.com/totegamma/concurrent-schemas/master/associations/like/0.0.1.json"

def emojiAssocSchema : String :=
  "https://raw.githubusercontent.com/totegamma/concurrent-schemas/master/associations/emoji/0.0.1.json"

def publicStream : String := "https://www.w3.org/ns/activitystreams#Public"

def asContext : String := "https://www.w3.org/ns/activitystreams"

/-! ## Side effects and service environment -/

/-- The association `SignedObject` handed to `association.PostAssociation`
in the Like branch (`body`/`meta` entries flattened; `shortcode`/`imageUrl`
are only present in the emoji variant). -/
structure AssocObj where
  signer : String := ""
  schema : String := ""
  shortcode : Option String := none
  imageUrl : Option String := none
  username : String := ""
  avatar : String := ""
  description : String := ""
  link : String := ""
  apActor : String := ""
  target : String := ""
  variant : String := ""
deriving DecidableEq, Repr, Inhabited

/-- The message `SignedObject` handed to `message.PostMessage` by
`NoteToMessage` (`body`/`meta` entries flattened). -/
structure PostCall where
  signer : String := ""
  content : String := ""
  emojis : List (String × String) := []
  username : String := ""
  avatar : String := ""
  description : String := ""
  link : String := ""
  apActor : String := ""
  apObjectRef : String := ""
  apPublisherInbox : String := ""
  destStreams : List String := []
deriving DecidableEq, Repr, Inhabited

/-- One observable outbound side effect of a handler run. -/
inductive Effect where
  | postAccept (inboxURL : String) (acceptID : String) (followID : String)
  | postAssociation (assoc : AssocObj)
  | postMessage (call : PostCall)
  | deleteMessage (ccObjectID : String)
  | deleteAssociation (ccObjectID : String)
deriving DecidableEq, Repr, Inhabited

/-- Oracles for the external collaborators (entity/message/association
services, remote HTTP).  A `none` result models the corresponding Go error
return; the `Ok` booleans model success of calls whose result value is not
inspected. -/
structure Env where
  fqdn : String := ""
  proxyCCID : String := ""
  getEntityByID : String → Option ApEntity := fun _ => none
  getEntityByCCID : String → Option ApEntity := fun _ => none
  fetchPerson : String → Option Person := fun _ => none
  messageGet : String → Option CCMsg := fun _ => none
  pathEscape : String → String := fun s => s
  postToInboxOk : Bool := true
  signOk : Bool := true
  postAssociation : AssocObj → Option CCMsg := fun _ => none
  postMessage : PostCall → Option CCMsg := fun _ => none
  messageDeleteOk : Bool := true
  assocDeleteOk : Bool := true

/-! ## Database state and repository operations
(src/x/activitypub/repository.go part 1 and src/unnamed/part_000) -/

/-- The three relational tables the inbox dispatcher mutates. -/
structure DB where
  followers : List ApFollower := []
  follows : List ApFollow := []
  objectRefs : List ApObjectReference := []
deriving DecidableEq, Repr, Inhabited

/-- `GetFollowerByTuple`: `First` on
`publisher_user_id = local AND subscriber_person_url = remote`. -/
def getFollowerByTuple (db : DB) (localID remote : String) : Option ApFollower :=
  db.followers.find? (fun f => f.publisherUserID = localID && f.subscriberPersonURL = remote)

/-- `SaveFollower`: gorm `Create`, which fails on a duplicate `id` primary
key or a duplicate `(publisher_user_id, subscriber_person_url)` unique
index; `none` models the error. -/
def saveFollower (db : DB) (f : ApFollower) : Option DB :=
  if db.followers.any (fun g =>
      g.id = f.id ||
      (g.publisherUserID = f.publisherUserID && g.subscriberPersonURL = f.subscriberPersonURL))
  then none
  else some { db with followers := db.followers ++ [f] }

/-- `RemoveFollower`: delete all rows matching the tuple. -/
def removeFollower (db : DB) (localID remote : String) : DB :=
  { db with followers := db.followers.filter (fun f => !(f.publisherUserID = localID && f.subscriberPersonURL = remote)) }

/-- `GetFollowByID`: `First` on `id`. -/
def getFollowByID (db : DB) (id : String) : Option ApFollow :=
  db.follows.find? (fun f => f.id = id)

/-- `UpdateFollow`: gorm `Save` (upsert by primary key `id`). -/
def updateFollow (db : DB) (f : ApFollow) : DB :=
  if db.follows.any (fun g => g.id = f.id)
  then { db with follows := db.follows.map (fun g => if g.id = f.id then f else g) }
  else { db with follows := db.follows ++ [f] }

/-- `CreateApObjectReference`: gorm `Create`, which fails on a duplicate
`ap_object_id` primary key; `none` models the error. -/
def createApObjectReference (db : DB) (r : ApObjectReference) : Option DB :=
  if db.objectRefs.any (fun q => q.apObjectID = r.apObjectID)
  then none
  else some { db with objectRefs := db.objectRefs ++ [r] }

/-- `UpdateApObjectReference`: gorm `Save` (upsert by primary key
`ap_object_id`). -/
def updateApObjectReference (db : DB) (r : ApObjectReference) : DB :=
  if db.objectRefs.any (fun q => q.apObjectID = r.apObjectID)
  then { db with objectRefs := db.objectRefs.map (fun q => if q.apObjectID = r.apObjectID then r else q) }
  else { db with objectRefs := db.objectRefs ++ [r] }

/-- `GetApObjectReferenceByApObjectID`: `First` on `ap_object_id`. -/
def getApObjectReferenceByApObjectID (db : DB) (apID : String) : Option ApObjectReference :=
  db.objectRefs.find? (fun r => r.apObjectID = apID)

/-- `GetApObjectReferenceByCcObjectID`: `First` on `cc_object_id`. -/
def getApObjectReferenceByCcObjectID (db : DB) (ccID : String) : Option ApObjectReference :=
  db.objectRefs.find? (fun r => r.ccObjectID = ccID)

/-- `DeleteApObjectReference`: delete by `ap_object_id`. -/
def deleteApObjectReference (db : DB) (apID : String) : DB :=
  { db with objectRefs := db.objectRefs.filter (fun r => !(r.apObjectID = apID)) }

/-! ## String helpers (Go standard library behaviours used by the code) -/

/-- `strings.Split(s, "/")` over the character list (structural, so it
evaluates inside the kernel).  Splitting the empty string yields `[""]`,
as in Go. -/
def splitSlash : List Char → List (List Char)
  | [] => [[]]
  | c :: rest =>
    let r := splitSlash rest
    if c = '/' then [] :: r
    else
      match r with
      | [] => [[c]]
      | h :: t => (c :: h) :: t

/-- Last element of `strings.Split(s, "/")` (the split list is never
empty, so the default is never used). -/
def lastSlashComponent (s : String) : String :=
  String.mk ((splitSlash s.data).getLastD [])

/-- Auxiliary for `strings.Replace(s, old, new, 1)`: replace the first
occurrence of `old`. -/
def replaceFirstAux (old new : List Char) : List Char → List Char
  | [] => []
  | c :: rest =>
    if old.isPrefixOf (c :: rest)
    then new ++ (c :: rest).drop old.length
    else c :: replaceFirstAux old new rest

/-- `strings.Replace(s, old, new, 1)`. -/
def replaceFirst (s old new : String) : String :=
  String.mk (replaceFirstAux old.data new.data s.data)

/-- `strings.TrimPrefix(s, pre)`. -/
def trimPrefixStr (s pre : String) : String :=
  if pre.data.isPrefixOf s.data then String.mk (s.data.drop pre.data.length) else s

/-- `strings.Trim(s, ":")`: strip leading and trailing `':'` characters. -/
def trimColons (s : String) : String :=
  String.mk ((((s.data.dropWhile (fun c => c = ':')).reverse).dropWhile
      (fun c => c = ':')).reverse)

/-! ## The image-markdown regular expression

convertfunc.go extracts and strips markdown images with the Go regexp
`!\[.*\]\((.*)\)` (`FindAllStringSubmatch` / `ReplaceAllString`).  Go regexps
use leftmost position, then Perl-style backtracking preference: each greedy
`.*` (which does not cross a newline) is tried longest first.  The model
below implements exactly that search for this one pattern. -/

/-- Length of the longest newline-free prefix: the span a greedy `.*` can
initially consume. -/
def maxStar (cs : List Char) : Nat :=
  (cs.takeWhile (fun c => !(c = '\n'))).length

/-- Try candidate lengths `n, n-1, …, 0` in order (the backtracking
preference of a greedy `.*`) and return the first accepted one. -/
def findGreedy (n : Nat) (p : Nat → Bool) : Option Nat :=
  (List.range (n + 1)).reverse.find? p

/-- Given the text following a literal `![`, find the greedy backtracking
match of `.*\]\((.*)\)`: returns `(p, q)` where `p` is the span of the
first `.*` and `q` the span of the capture group. -/
def matchAfterBang (cs : List Char) : Option (Nat × Nat) :=
  let second : Nat → Option Nat := fun p =>
    let rest := cs.drop p
    if rest.take 2 = [']', '('] then
      let rest2 := rest.drop 2
      findGreedy (maxStar rest2) (fun q => (rest2.drop q).take 1 = [')'])
    else none
  match findGreedy (maxStar cs) (fun p => (second p).isSome) with
  | none => none
  | some p =>
    match second p with
    | none => none
    | some q => some (p, q)

/-- One pass over the text: collect every capture group of successive
non-overlapping leftmost matches of `!\[.*\]\((.*)\)` and delete the
matched spans (this computes both `FindAllStringSubmatch` groups and the
`ReplaceAllString` result).  `fuel` bounds the recursion; every step
consumes at least one character, so `cs.length` fuel is exact. -/
def scanImages : Nat → List Char → List String × List Char
  | 0, cs => ([], cs)
  | _ + 1, [] => ([], [])
  | fuel + 1, c :: rest =>
    if c = '!' then
      match rest with
      | '[' :: rest2 =>
        (match matchAfterBang rest2 with
         | some (p, q) =>
           let group := String.mk ((rest2.drop (p + 2)).take q)
           let after := rest2.drop (p + 2 + q + 1)
           let r := scanImages fuel after
           (group :: r.1, r.2)
         | none =>
           let r := scanImages fuel rest
           (r.1, c :: r.2))
      | _ =>
        let r := scanImages fuel rest
        (r.1, c :: r.2)
    else
      let r := scanImages fuel rest
      (r.1, c :: r.2)

/-- The capture groups of `imagePattern.FindAllStringSubmatch(text, -1)`. -/
def extractImages (s : String) : List String :=
  (scanImages s.data.length s.data).1

/-- `imagePattern.ReplaceAllString(text, "")`. -/
def stripImages (s : String) : String :=
  String.mk (scanImages s.data.length s.data).2

/-! ## Translation layer (src/x/activitypub/convertfunc.go) -/

/-- The `body["emojis"]` flattening of `MessageToNote`: each entry with an
`imageURL` string becomes an `Emoji` tag (entries without one are
skipped). -/
def buildEmojiTags (l : List (String × Option String)) : List ActTag :=
  l.foldl (fun acc kv =>
    match kv.2 with
    | none => acc
    | some imageURL =>
      acc ++ [{ id := imageURL, type := "Emoji", name := ":" ++ kv.1 ++ ":",
                icon := { type := "Image", mediaType := "image/png", url := imageURL } }]) []

/-- `MessageToNote` (convertfunc.go): resolve the CC message and its author
entity, parse the payload, extract markdown images and emojis, then
dispatch on the payload schema (note / reply / reroute). -/
def MessageToNote (env : Env) (messageID : String) : Except String Note :=
  match env.messageGet messageID with
  | none => .error "message not found"
  | some msg =>
    match env.getEntityByCCID msg.author with
    | none => .error "entity not found"
    | some entity =>
      match msg.payload with
      | none => .error "invalid payload"
      | some signedObject =>
        match signedObject.body with
        | none => .error "invalid body"
        | some bodyMap =>
          match bodyMap.body with
          | none => .error "invalid body"
          | some rawText =>
            let images := extractImages rawText
            let text := stripImages rawText
            let emojis := buildEmojiTags (bodyMap.emojis.getD [])
            let attachments := images.map (fun u =>
              ({ type := "Document", mediaType := "image/png", url := u } : Attachment))
            let fqdn := env.fqdn
            if signedObject.schema = noteSchema then
              .ok { context := asContext, type := "Note",
                    id := "https://" ++ fqdn ++ "/ap/note/" ++ msg.id,
                    attributedTo := "https://" ++ fqdn ++ "/ap/acct/" ++ entity.id,
                    content := text, published := signedObject.signedAt,
                    toRecipients := [publicStream], tag := emojis,
                    attachment := attachments }
            else if signedObject.schema = replySchema then
              match bodyMap.replyToMessageId with
              | none => .error "invalid body"
              | some sourceID =>
                match env.messageGet sourceID with
                | none => .error "message not found"
                | some replySource =>
                  match replySource.payload with
                  | none => .error "invalid payload"
                  | some replySignedObject =>
                    match replySignedObject.meta with
                    | none => .error "invalid meta"
                    | some replyMeta =>
                      let ref := replyMeta.apObjectRef.getD
                        ("https://" ++ fqdn ++ "/ap/note/" ++ sourceID)
                      .ok { context := asContext, type := "Note",
                            id := "https://" ++ fqdn ++ "/ap/note/" ++ msg.id,
                            attributedTo := "https://" ++ fqdn ++ "/ap/acct/" ++ entity.id,
                            content := text, inReplyTo := ref,
                            toRecipients := [publicStream] }
            else if signedObject.schema = rerouteSchema then
              match bodyMap.rerouteMessageId with
              | none => .error "invalid body"
              | some sourceID =>
                match env.messageGet sourceID with
                | none => .error "message not found"
                | some rerouteSource =>
                  match rerouteSource.payload with
                  | none => .error "invalid payload"
                  | some rerouteSignedObject =>
                    match rerouteSignedObject.meta with
                    | none => .error "invalid meta"
                    | some rerouteMeta =>
                      let ref := rerouteMeta.apObjectRef.getD
                        ("https://" ++ fqdn ++ "/ap/note/" ++ sourceID)
                      if text = "" then
                        .ok { context := asContext, type := "Announce",
                              id := "https://" ++ fqdn ++ "/ap/note/" ++ msg.id,
                              object := ref }
                      else
                        .ok { context := asContext, type := "Note",
                              id := "https://" ++ fqdn ++ "/ap/note/" ++ msg.id,
                              attributedTo := "https://" ++ fqdn ++ "/ap/acct/" ++ entity.id,
                              content := text, quoteUrl := ref,
                              toRecipients := [publicStream] }
            else .error "invalid schema"

/-- The content `NoteToMessage` derives before its length checks:
`Note.Content` plus an appended markdown image for every attachment of
type `Document`. -/
def derivedContent (note : Note) : String :=
  note.attachment.foldl
    (fun c a => if a.type = "Document" then c ++ "\n\n![image](" ++ a.url ++ ")" else c)
    note.content

/-- Go map insertion `emojis[name] = v` over the association-list model. -/
def insertEmoji (m : List (String × String)) (k v : String) : List (String × String) :=
  if m.any (fun p => p.1 = k) then m.map (fun p => if p.1 = k then (k, v) else p)
  else m ++ [(k, v)]

/-- The emoji map `NoteToMessage` collects from `Emoji` tags
(`strings.Trim(tag.Name, ":") → tag.Icon.URL`). -/
def collectEmojis (tags : List ActTag) : List (String × String) :=
  tags.foldl (fun m t => if t.type = "Emoji" then insertEmoji m (trimColons t.name) t.icon.url else m) []

/-- `NoteToMessage` (convertfunc.go): derive the content, reject empty or
over-long content before any service call, then sign and post the CC
message.  The second component is the trace of `message.PostMessage`
calls. -/
def NoteToMessage (env : Env) (object : Note) (person : Person)
    (destStreams : List String) : Except String CCMsg × List Effect :=
  let content := derivedContent object
  let emojis := collectEmojis object.tag
  if content.length = 0 then (.error "empty note", [])
  else if content.length > 4096 then (.error "note too long", [])
  else
    let username := if person.name.length = 0 then person.preferredUsername else person.name
    let call : PostCall :=
      { signer := env.proxyCCID, content := content, emojis := emojis,
        username := username, avatar := person.icon.url,
        description := person.summary, link := person.url,
        apActor := person.url, apObjectRef := object.id,
        apPublisherInbox := person.inbox, destStreams := destStreams }
    if env.signOk then
      match env.postMessage call with
      | none => (.error "post message failed", [.postMessage call])
      | some created => (.ok created, [.postMessage call])
    else (.error "sign failed", [])

/-! ## Inbox dispatcher (src/x/activitypub/repository.go, `Handler.Inbox`)

Each branch returns the HTTP status and body, the new database state and the
trace of outbound effects.  A Go `panic` (unchecked type assertion on
`object.Object`, out-of-range index into `object.Tag` or `Name`) is the
`none` result. -/

/-- Result of one `Inbox` handler run. -/
structure InboxResult where
  status : Nat
  body : String
  db : DB
  effects : List Effect
deriving DecidableEq, Repr, Inhabited

/-- The `Follow` branch: resolve the local entity, fetch the requester,
POST an `Accept` back (before any duplicate check), then insert the
`ApFollower` row unless the tuple already exists.  `object.Object.(string)`
is an unchecked assertion. -/
def inboxFollow (env : Env) (db : DB) (pathID : String) (obj : InObject) : Option InboxResult :=
  if pathID = "" then some ⟨400, "Invalid username", db, []⟩
  else
    match env.getEntityByID pathID with
    | none => some ⟨404, "entity not found", db, []⟩
    | some _entity =>
      match env.fetchPerson obj.actor with
      | none => some ⟨400, "Invalid request body", db, []⟩
      | some requester =>
        let acceptID := "https://" ++ env.fqdn ++ "/ap/acct/" ++ pathID ++ "/follows/"
            ++ env.pathEscape requester.id
        match obj.object with
        | .str s =>
          let userID := lastSlashComponent s
          let effects := [Effect.postAccept requester.inbox acceptID obj.id]
          if env.postToInboxOk then
            match getFollowerByTuple db userID requester.id with
            | some _ => some ⟨200, "follow already exists", db, effects⟩
            | none =>
              match saveFollower db ⟨obj.id, requester.id, userID, requester.inbox⟩ with
              | some db1 => some ⟨200, "follow accepted", db1, effects⟩
              | none => some ⟨500, "Internal server error (save follow error)", db, effects⟩
          else some ⟨500, "Internal server error", db, effects⟩
        | _ => none

/-- The like-schema association built in the `Like` branch. -/
def likeAssocOf (env : Env) (obj : InObject) (person : Person) (targetID : String) : AssocObj :=
  let username := if person.name.length = 0 then person.preferredUsername else person.name
  { signer := env.proxyCCID, schema := likeAssocSchema,
    username := username, avatar := person.icon.url, description := person.summary,
    link := obj.actor, apActor := obj.actor, target := targetID }

/-- The emoji-schema association built in the `Like` branch from the first
tag. -/
def emojiAssocOf (env : Env) (obj : InObject) (person : Person) (targetID : String)
    (t : ActTag) : AssocObj :=
  let username := if person.name.length = 0 then person.preferredUsername else person.name
  { signer := env.proxyCCID, schema := emojiAssocSchema,
    shortcode := some t.name, imageUrl := some t.icon.url,
    username := username, avatar := person.icon.url, description := person.summary,
    link := obj.actor, apActor := obj.actor, target := targetID,
    variant := t.icon.url }

/-- Tail of the `Like` branch: marshal (total), sign, post the association,
then upsert the cross-reference with the created association id (the
update error is ignored by the Go code). -/
def inboxLikePost (env : Env) (db : DB) (assoc : AssocObj) (apID : String) : InboxResult :=
  if env.signOk then
    match env.postAssociation assoc with
    | none => ⟨200, "Internal server error (post association error)", db, [.postAssociation assoc]⟩
    | some created =>
      ⟨200, "like accepted", updateApObjectReference db ⟨apID, created.id⟩,
        [.postAssociation assoc]⟩
  else ⟨200, "Internal server error (sign error)", db, []⟩

/-- The `Like` branch: derive the target id, look up the target message,
claim the cross-reference (duplicate → 200 "like already exists"), fetch
entity and actor, then dispatch on the first tag:
`(object.Tag == nil) || (object.Tag[0].Name[0] != ':')` → like schema,
otherwise emoji schema.  The index expressions panic on a present-but-empty
tag list or an empty first name. -/
def inboxLike (env : Env) (db : DB) (obj : InObject) : Option InboxResult :=
  match obj.object with
  | .str objStr =>
    let targetID := replaceFirst objStr ("https://" ++ env.fqdn ++ "/ap/note/") ""
    match env.messageGet targetID with
    | none => some ⟨200, "message not found", db, []⟩
    | some targetMsg =>
      match createApObjectReference db ⟨obj.id, ""⟩ with
      | none => some ⟨200, "like already exists", db, []⟩
      | some db1 =>
        match env.getEntityByCCID targetMsg.author with
        | none => some ⟨200, "entity not found", db1, []⟩
        | some _entity =>
          match env.fetchPerson obj.actor with
          | none => some ⟨200, "failed to fetch actor", db1, []⟩
          | some person =>
            match obj.tag with
            | none => some (inboxLikePost env db1 (likeAssocOf env obj person targetID) obj.id)
            | some [] => none
            | some (t :: _) =>
              match t.name.data with
              | [] => none
              | c :: _ =>
                if c = ':' then
                  some (inboxLikePost env db1 (emojiAssocOf env obj person targetID t) obj.id)
                else
                  some (inboxLikePost env db1 (likeAssocOf env obj person targetID) obj.id)
  | _ => none

/-- The `Create` branch: checked assertions on the nested object, duplicate
checks, destination-stream collection over the publisher's follows, then
`NoteToMessage` and cross-reference update (its error is ignored and the
zero message id is stored on failure). -/
def inboxCreate (env : Env) (db : DB) (obj : InObject) : InboxResult :=
  match obj.object with
  | .map m =>
    match m.typeVal with
    | none => ⟨400, "Invalid request body", db, []⟩
    | some createType =>
      match m.idVal with
      | none => ⟨400, "Invalid request body", db, []⟩
      | some createID =>
        if createType = "Note" then
          match getApObjectReferenceByCcObjectID db createID with
          | some _ => ⟨200, "note already exists", db, []⟩
          | none =>
            match createApObjectReference db ⟨createID, ""⟩ with
            | none => ⟨200, "note already exists", db, []⟩
            | some db1 =>
              let follows := db.follows.filter (fun f => f.publisherPersonURL = obj.actor)
              let destStreams := (follows.filterMap
                  (fun f => env.getEntityByID f.subscriberUserID)).map (fun e => e.followStream)
              if destStreams = [] then ⟨200, "No followers", db1, []⟩
              else
                match env.fetchPerson obj.actor with
                | none => ⟨400, "failed to fetch actor", db1, []⟩
                | some person =>
                  let r := NoteToMessage env m.noteVal person destStreams
                  let createdID := match r.1 with
                    | .ok created => created.id
                    | .error _ => ""
                  ⟨200, "note accepted", updateApObjectReference db1 ⟨createID, createdID⟩, r.2⟩
        else ⟨200, "OK but not implemented", db, []⟩
  | _ => ⟨400, "Invalid request body", db, []⟩

/-- The `Accept` branch: only `Accept{Follow}` is actioned; it flips the
local `ApFollow` row to accepted. -/
def inboxAccept (db : DB) (obj : InObject) : InboxResult :=
  match obj.object with
  | .map m =>
    match m.typeVal with
    | none => ⟨400, "Invalid request body", db, []⟩
    | some acceptType =>
      if acceptType = "Follow" then
        match m.idVal with
        | none => ⟨400, "Invalid request body", db, []⟩
        | some objectID =>
          match getFollowByID db objectID with
          | none => ⟨404, "follow not found", db, []⟩
          | some apFollow =>
            ⟨200, "follow accepted", updateFollow db { apFollow with accepted := true }, []⟩
      else ⟨200, "OK but not implemented", db, []⟩
  | _ => ⟨400, "Invalid request body", db, []⟩

/-- The `Undo` branch: `Undo{Follow}` removes the follower tuple,
`Undo{Like}` deletes the association bound by the cross-reference and then
the cross-reference itself. -/
def inboxUndo (env : Env) (db : DB) (obj : InObject) : InboxResult :=
  match obj.object with
  | .map m =>
    match m.typeVal with
    | none => ⟨400, "Invalid request body", db, []⟩
    | some undoType =>
      if undoType = "Follow" then
        match m.actorVal with
        | none => ⟨400, "Invalid request body", db, []⟩
        | some remote =>
          match m.objectVal with
          | none => ⟨400, "Invalid request body", db, []⟩
          | some objStr =>
            let localID := trimPrefixStr objStr ("https://" ++ env.fqdn ++ "/ap/acct/")
            match getFollowerByTuple db localID remote with
            | none => ⟨200, "follow already undoed", db, []⟩
            | some _ => ⟨200, "OK", removeFollower db localID remote, []⟩
      else if undoType = "Like" then
        match m.idVal with
        | none => ⟨200, "Invalid request body", db, []⟩
        | some likeID =>
          match getApObjectReferenceByApObjectID db likeID with
          | none => ⟨404, "like not found", db, []⟩
          | some deleteRef =>
            if env.assocDeleteOk then
              ⟨200, "like undoed", deleteApObjectReference db deleteRef.apObjectID,
                [.deleteAssociation deleteRef.ccObjectID]⟩
            else ⟨500, "Internal server error (delete like error)", db,
                [.deleteAssociation deleteRef.ccObjectID]⟩
      else ⟨200, "OK but not implemented", db, []⟩
  | _ => ⟨400, "Invalid request body", db, []⟩

/-- The `Delete` branch: checked assertions (failures answer 200), look up
the cross-reference (missing → 200 "Object Already Deleted"), delete the
bound CC message via the `message` service, then delete the
cross-reference. -/
def inboxDelete (env : Env) (db : DB) (obj : InObject) : InboxResult :=
  match obj.object with
  | .map m =>
    match m.idVal with
    | none => ⟨200, "Invalid request body", db, []⟩
    | some deleteID =>
      match getApObjectReferenceByApObjectID db deleteID with
      | none => ⟨200, "Object Already Deleted", db, []⟩
      | some deleteRef =>
        if env.messageDeleteOk then
          ⟨200, "Deleted", deleteApObjectReference db deleteRef.apObjectID,
            [.deleteMessage deleteRef.ccObjectID]⟩
        else ⟨500, "Internal server error (delete error)", db,
            [.deleteMessage deleteRef.ccObjectID]⟩
  | _ => ⟨200, "Invalid request body", db, []⟩

/-- `Handler.Inbox`: dispatch on `object.Type` (the Go `switch`). -/
def inbox (env : Env) (db : DB) (pathID : String) (obj : InObject) : Option InboxResult :=
  if obj.type = "Follow" then inboxFollow env db pathID obj
  else if obj.type = "Like" then inboxLike env db obj
  else if obj.type = "Create" then some (inboxCreate env db obj)
  else if obj.type = "Accept" then some (inboxAccept db obj)
  else if obj.type = "Undo" then some (inboxUndo env db obj)
  else if obj.type = "Delete" then some (inboxDelete env db obj)
  else some ⟨200, "OK but not implemented", db, []⟩

/-! ## Actor resolution (src/x/activitypub/client.go, `ResolveActor`)

The link-selection loop over the decoded WebFinger document. -/

/-- The selection loop of `ResolveActor`: iterate over `webfinger.Links`
overwriting `aplink` on every `Rel == "self"` hit, then fail when the
final `aplink.Href` is empty. -/
def resolveActorSelect (wf : WebFinger) : Except String String :=
  let aplink := wf.links.foldl (fun acc link => if link.rel = "self" then link else acc)
    ({} : WebFingerLink)
  if aplink.href = "" then .error "no ap link found" else .ok aplink.href

/-- The selection the spec describes (`Picks the first Links[].Rel ==
"self" whose Href is non-empty`), stated for comparison with
`resolveActorSelect`. -/
def specFirstSelfHref (wf : WebFinger) : Option String :=
  (wf.links.find? (fun l => l.rel = "self" && !(l.href = ""))).map (fun l => l.href)

/-! ## Local API (src/x/activitypub/repository.go, `Handler.CreateEntity`
and `Handler.GetEntityID`) -/

/-- A local-API response: either a plain string or a JSON `{status,
content}` envelope carrying an entity. -/
inductive ApiResult where
  | strRes (status : Nat) (body : String)
  | jsonEntity (status : Nat) (content : ApEntity)
deriving DecidableEq, Repr, Inhabited

/-- `CreateEntityRequest` of model.go. -/
structure CreateEntityRequest where
  id : String := ""
  homeStream : String := ""
  notificationStream : String := ""
  followStream : String := ""
deriving DecidableEq, Repr, Inhabited

/-- Oracles for `CreateEntity` / `GetEntityID`: the entity table lookup,
repository write success, and the generated PEM key pair. -/
structure EntityEnv where
  getEntityByCCID : String → Option ApEntity := fun _ => none
  updateEntityOk : Bool := true
  createEntityOk : Bool := true
  genPrivPem : String := ""
  genPubPem : String := ""

/-- `Handler.CreateEntity`: update the streams of an existing entity, or
generate a key pair and create a new one; either way the `Privatekey`
field is blanked before the JSON response. -/
def CreateEntity (env : EntityEnv) (ccid : String) (request : CreateEntityRequest) : ApiResult :=
  match env.getEntityByCCID ccid with
  | some entity =>
    let entity1 := { entity with
      homeStream := request.homeStream,
      notificationStream := request.notificationStream,
      followStream := request.followStream }
    if env.updateEntityOk then .jsonEntity 200 { entity1 with privatekey := "" }
    else .strRes 500 "Internal server error"
  | none =>
    let created : ApEntity :=
      { id := request.id, ccid := ccid, publickey := env.genPubPem,
        privatekey := env.genPrivPem, homeStream := request.homeStream,
        notificationStream := request.notificationStream,
        followStream := request.followStream }
    if env.createEntityOk then .jsonEntity 200 { created with privatekey := "" }
    else .strRes 500 "Internal server error"

/-- `Handler.GetEntityID`: look the entity up by CCID and blank its
`Privatekey` before the JSON response. -/
def GetEntityID (env : EntityEnv) (ccid : String) : ApiResult :=
  if ccid = "" then .strRes 400 "Invalid username"
  else
    match env.getEntityByCCID ccid with
    | none => .strRes 404 "entity not found"
    | some entity => .jsonEntity 200 { entity with privatekey := "" }

/-! ## Observation helpers -/

/-- Number of `Accept` POSTs in an effect trace. -/
def countAccepts (effects : List Effect) : Nat :=
  (effects.filter (fun e => match e with | .postAccept _ _ _ => true | _ => false)).length

/-- Number of association posts in an effect trace. -/
def countAssocPosts (effects : List Effect) : Nat :=
  (effects.filter (fun e => match e with | .postAssociation _ => true | _ => false)).length

/-- Number of `ApFollower` rows for a `(publisherUserID,
subscriberPersonURL)` pair. -/
def followerRows (db : DB) (pub sub : String) : Nat :=
  (db.followers.filter (fun f => f.publisherUserID = pub && f.subscriberPersonURL = sub)).length

/-- Number of `ApObjectReference` rows for an AP object id. -/
def refRows (db : DB) (apID : String) : Nat :=
  (db.objectRefs.filter (fun r => r.apObjectID = apID)).length

/-- Substring containment (for C5's "content contains"). -/
def containsSubstr (s sub : String) : Prop :=
  ∃ a b : String, s = a ++ sub ++ b

/-! ## Generic helper lemmas -/

theorem any_eq_false_of_forall {α : Type} {l : List α} {p : α → Bool}
    (h : ∀ x ∈ l, p x = false) : l.any p = false := by
  induction l with
  | nil => rfl
  | cons a t ih =>
    simp only [List.any_cons, h a (by simp), Bool.false_or]
    exact ih (fun x hx => h x (by simp [hx]))

/-!  ## C4: NoteToMessage length bound -/

/-- C4 (confirmed).  For every input `Note`, `Person` and destination
stream list, if the derived content (`Note.content` plus appended markdown
images for each `Document` attachment) is empty, `NoteToMessage` returns
the "empty note" error; if it is longer than 4096, the distinct
"note too long" error; in both cases with an empty `message.PostMessage`
trace, i.e. without calling the message service. -/
theorem noteToMessage_length_bound (env : Env) (note : Note) (person : Person)
    (destStreams : List String) :
    ((derivedContent note).length = 0 →
      NoteToMessage env note person destStreams = (.error "empty note", [])) ∧
    ((derivedContent note).length > 4096 →
      NoteToMessage env note person destStreams = (.error "note too long", [])) ∧
    ("empty note" : String) ≠ "note too long" := by
  refine ⟨fun h => ?_, fun h => ?_, by decide⟩
  · unfold NoteToMessage
    rw [if_pos h]
  · unfold NoteToMessage
    rw [if_neg (by omega), if_pos h]

/-- C4 witness: an empty note and a 4097-character note are rejected with
the two distinct errors and no message-service call. -/
theorem noteToMessage_length_bound_witness :
    NoteToMessage {} { content := "" } {} [] = (.error "empty note", []) ∧
    NoteToMessage {} { content := String.mk (List.replicate 4097 'a') } {} [] =
      (.error "note too long", []) :=
  ⟨(noteToMessage_length_bound {} { content := "" } {} []).1 rfl,
   (noteToMessage_length_bound {} { content := String.mk (List.replicate 4097 'a') } {} []).2.1
     (by
       have h : (derivedContent { content := String.mk (List.replicate 4097 'a') }).length = 4097 := by
         show (List.replicate 4097 'a').length = 4097
         rw [List.length_replicate]
       omega)⟩

/-! ## C9: private key scrubbing -/

/-- C9 (confirmed).  Whenever `CreateEntity` (either its update or its
create path) or `GetEntityID` answers with a JSON entity envelope, the
serialized entity's `Privatekey` field is empty. -/
theorem privatekey_scrubbed (env : EntityEnv) (ccid : String)
    (request : CreateEntityRequest) (st : Nat) (e : ApEntity)
    (h : CreateEntity env ccid request = .jsonEntity st e ∨
         GetEntityID env ccid = .jsonEntity st e) :
    e.privatekey = "" := by
  rcases h with h | h
  · unfold CreateEntity at h
    cases hg : env.getEntityByCCID ccid <;> rw [hg] at h
    · cases hc : env.createEntityOk <;> rw [hc] at h <;> simp only [if_true, if_false] at h
      · cases h
      · cases h
        rfl
    · cases hu : env.updateEntityOk <;> rw [hu] at h <;> simp only [if_true, if_false] at h
      · cases h
      · cases h
        rfl
  · unfold GetEntityID at h
    by_cases hc : ccid = ""
    · rw [if_pos hc] at h
      cases h
    · rw [if_neg hc] at h
      cases hg : env.getEntityByCCID ccid <;> rw [hg] at h
      · cases h
      · cases h
        rfl

def env9 : EntityEnv :=
  { getEntityByCCID := fun _ => none, createEntityOk := true,
    genPrivPem := "PRIVPEM", genPubPem := "PUBPEM" }

def e9 : ApEntity :=
  { id := "alice", ccid := "CC1", publickey := "PUBPEM", privatekey := "",
    homeStream := "h", notificationStream := "n", followStream := "f" }

/-- C9 witness: the create path of `CreateEntity` at a concrete request
answers with a blanked private key. -/
theorem privatekey_scrubbed_witness : e9.privatekey = "" :=
  privatekey_scrubbed env9 "CC1"
    { id := "alice", homeStream := "h", notificationStream := "n", followStream := "f" }
    200 e9 (Or.inl rfl)

/-! ## C10: unchecked `object.Object.(string)` assertion -/

/-- C10 (confirmed).  The Like branch evaluates `object.Object.(string)`
without a checked assertion, so any Like whose `object` field is a nested
JSON object makes the handler panic (modelled as `none`) instead of
returning a 400 response. -/
theorem like_object_map_panics (env : Env) (db : DB) (pathID : String)
    (obj : InObject) (m : ObjMap)
    (htype : obj.type = "Like") (hobj : obj.object = .map m) :
    inbox env db pathID obj = none := by
  unfold inbox
  rw [htype]
  simp only [reduceIte, String.reduceEq, if_false]
  unfold inboxLike
  rw [hobj]

/-- C10 witness: a concrete Like with a nested object panics. -/
theorem like_object_map_panics_witness :
    inbox {} {} "" { type := "Like", object := .map {} } = none :=
  like_object_map_panics {} {} "" { type := "Like", object := .map {} } {} rfl rfl

/-! ## C7: ResolveActor link selection -/

def wf7 : WebFinger :=
  { links := [ { rel := "self", href := "https://a.example/ap" },
               { rel := "self", href := "https://b.example/ap" } ] }

/-- C7 counterexample.  On a WebFinger document with two `self` links the
code returns the href of the second (last) one, while the claimed
"first `self` link with non-empty href" is the first. -/
theorem resolveActor_counterexample :
    resolveActorSelect wf7 = .ok "https://b.example/ap" ∧
    specFirstSelfHref wf7 = some "https://a.example/ap" ∧
    ("https://b.example/ap" : String) ≠ "https://a.example/ap" :=
  ⟨rfl, rfl, by decide⟩

theorem foldl_self_eq_getLastD (links : List WebFingerLink) (acc : WebFingerLink) :
    links.foldl (fun a l => if l.rel = "self" then l else a) acc =
      (links.filter (fun l => l.rel = "self")).getLastD acc := by
  induction links generalizing acc with
  | nil => rfl
  | cons l ls ih =>
    by_cases h : l.rel = "self"
    · rw [List.foldl_cons, if_pos h, ih, List.filter_cons, if_pos (by simp [h]),
        List.getLastD_cons]
    · rw [List.foldl_cons, if_neg h, ih, List.filter_cons, if_neg (by simp [h])]

/-- C7 (corrected).  `ResolveActor`'s selection loop returns the href of
the LAST link whose `Rel` equals "self"; it fails exactly when there is no
`self` link or the last `self` link's href is empty. -/
theorem resolveActor_last_self (wf : WebFinger) :
    resolveActorSelect wf =
      match (wf.links.filter (fun l => l.rel = "self")).getLast? with
      | none => .error "no ap link found"
      | some l => if l.href = "" then .error "no ap link found" else .ok l.href := by
  unfold resolveActorSelect
  rw [foldl_self_eq_getLastD, List.getLastD_eq_getLast?]
  cases h : (wf.links.filter (fun l => l.rel = "self")).getLast? with
  | none => rfl
  | some l => rfl

/-! ## C5: markdown / attachment round-trip -/

def msg5 : CCMsg :=
  { id := "m1", author := "CCalice",
    payload := some { schema := noteSchema,
                      body := some { body := some "hello ![](https://x/y.png)" },
                      signedAt := "2024-01-01T00:00:00Z" } }

def env5 : Env :=
  { fqdn := "fq.dn", proxyCCID := "CCproxy",
    getEntityByCCID := fun ccid => if ccid = "CCalice" then some { id := "alice", ccid := "CCalice" } else none,
    messageGet := fun mid => if mid = "m1" then some msg5 else none,
    postMessage := fun _ => some { id := "cc-created" } }

def note5 : Note :=
  { context := asContext, type := "Note", id := "https://fq.dn/ap/note/m1",
    attributedTo := "https://fq.dn/ap/acct/alice", content := "hello ",
    published := "2024-01-01T00:00:00Z", toRecipients := [publicStream],
    tag := [],
    attachment := [{ type := "Document", mediaType := "image/png", url := "https://x/y.png" }] }

def person5 : Person :=
  { id := "https://remote/users/bob", inbox := "https://remote/inbox",
    name := "Bob", url := "https://remote/@bob" }

def call5 : PostCall :=
  { signer := "CCproxy", content := "hello \n\n![image](https://x/y.png)",
    emojis := [], username := "Bob", avatar := "", description := "",
    link := "https://remote/@bob", apActor := "https://remote/@bob",
    apObjectRef := "https://fq.dn/ap/note/m1",
    apPublisherInbox := "https://remote/inbox", destStreams := ["st1"] }

/-- C5 (confirmed).  A CC note message with body
`"hello ![](https://x/y.png)"` converts via `MessageToNote` to a `Note`
with content `"hello "` and exactly one `Document` attachment with url
`"https://x/y.png"`; converting that `Note` back via `NoteToMessage` posts
a CC message whose content contains `"![image](https://x/y.png)"`. -/
theorem markdown_roundtrip :
    MessageToNote env5 "m1" = .ok note5 ∧
    note5.content = "hello " ∧
    note5.attachment = [{ type := "Document", mediaType := "image/png", url := "https://x/y.png" }] ∧
    (NoteToMessage env5 note5 person5 ["st1"]).2 = [.postMessage call5] ∧
    containsSubstr call5.content "![image](https://x/y.png)" :=
  ⟨rfl, rfl, rfl, rfl, ⟨"hello \n\n", "", rfl⟩⟩

/-! ## C6: reroute branch -/

/-- C6 counterexample.  A reroute message whose body text is the non-empty
string `"![](https://x/p.png)"` (pure image markdown) converts to an
`Announce`, not to a `Note` with `quoteUrl` as the claim states for every
non-empty body text: the branch tests the image-stripped text. -/
def msg6 : CCMsg :=
  { id := "m6", author := "CCalice",
    payload := some { schema := rerouteSchema,
                      body := some { body := some "![](https://x/p.png)",
                                     rerouteMessageId := some "src1" },
                      signedAt := "2024-01-01T00:00:00Z" } }

def msg6src : CCMsg :=
  { id := "src1", author := "CCalice",
    payload := some { schema := noteSchema,
                      meta := some { apObjectRef := some "https://remote/note/9" } } }

def env6 : Env :=
  { fqdn := "fq.dn",
    getEntityByCCID := fun ccid => if ccid = "CCalice" then some { id := "alice", ccid := "CCalice" } else none,
    messageGet := fun mid =>
      if mid = "m6" then some msg6 else if mid = "src1" then some msg6src else none }

def note6 : Note :=
  { context := asContext, type := "Announce", id := "https://fq.dn/ap/note/m6",
    object := "https://remote/note/9" }

/-- C6 counterexample: non-empty body text, yet the result is an
`Announce` without `quoteUrl`, refuting the claim's "otherwise returns a
Note whose content is the body text and whose quoteUrl is ref". -/
theorem reroute_counterexample :
    ("![](https://x/p.png)" : String) ≠ "" ∧
    MessageToNote env6 "m6" = .ok note6 ∧
    note6.type = "Announce" ∧
    note6.type ≠ "Note" ∧
    note6.quoteUrl = "" :=
  ⟨by decide, rfl, rfl, by decide, rfl⟩

/-- C6 (corrected).  For a reroute message, `MessageToNote` branches on
the body text after image-markdown stripping: if the stripped text is
empty it returns an `Announce` whose object is the resolved reference,
otherwise a `Note` whose content is the stripped text and whose `quoteUrl`
is the reference. -/
theorem reroute_branch (env : Env) (mid : String) (msg : CCMsg) (so : SignedObject)
    (b : SOBody) (t srcID : String) (src : CCMsg) (srcSo : SignedObject) (meta : MetaMap)
    (hmsg : env.messageGet mid = some msg)
    (hent : (env.getEntityByCCID msg.author).isSome = true)
    (hpay : msg.payload = some so)
    (hschema : so.schema = rerouteSchema)
    (hbody : so.body = some b)
    (htext : b.body = some t)
    (hsrc : b.rerouteMessageId = some srcID)
    (hsrcMsg : env.messageGet srcID = some src)
    (hsrcPay : src.payload = some srcSo)
    (hmeta : srcSo.meta = some meta) :
    (stripImages t = "" →
      MessageToNote env mid = .ok
        { context := asContext, type := "Announce",
          id := "https://" ++ env.fqdn ++ "/ap/note/" ++ msg.id,
          object := meta.apObjectRef.getD ("https://" ++ env.fqdn ++ "/ap/note/" ++ srcID) }) ∧
    (¬ stripImages t = "" → ∃ entity, env.getEntityByCCID msg.author = some entity ∧
      MessageToNote env mid = .ok
        { context := asContext, type := "Note",
          id := "https://" ++ env.fqdn ++ "/ap/note/" ++ msg.id,
          attributedTo := "https://" ++ env.fqdn ++ "/ap/acct/" ++ entity.id,
          content := stripImages t,
          quoteUrl := meta.apObjectRef.getD ("https://" ++ env.fqdn ++ "/ap/note/" ++ srcID),
          toRecipients := [publicStream] }) := by
  obtain ⟨entity, hentity⟩ := Option.isSome_iff_exists.mp hent
  have hne1 : ¬ (rerouteSchema = noteSchema) := by decide
  have hne2 : ¬ (rerouteSchema = replySchema) := by decide
  constructor
  · intro hstrip
    unfold MessageToNote
    simp only [hmsg, hentity, hpay, hbody, htext, hschema, if_true, if_false, hne1, hne2,
      hsrc, hsrcMsg, hsrcPay, hmeta]
    rw [if_pos hstrip]
  · intro hstrip
    refine ⟨entity, hentity, ?_⟩
    unfold MessageToNote
    simp only [hmsg, hentity, hpay, hbody, htext, hschema, if_true, if_false, hne1, hne2,
      hsrc, hsrcMsg, hsrcPay, hmeta]
    rw [if_neg hstrip]

def msg6q : CCMsg :=
  { id := "m7", author := "CCalice",
    payload := some { schema := rerouteSchema,
                      body := some { body := some "nice post",
                                     rerouteMessageId := some "src1" },
                      signedAt := "2024-01-01T00:00:00Z" } }

def env6q : Env :=
  { fqdn := "fq.dn",
    getEntityByCCID := fun ccid => if ccid = "CCalice" then some { id := "alice", ccid := "CCalice" } else none,
    messageGet := fun mid =>
      if mid = "m7" then some msg6q else if mid = "src1" then some msg6src else none }

/-- C6 witness: a quote reroute (non-empty stripped text) becomes a `Note`
with `quoteUrl`, at a concrete input, via `reroute_branch`. -/
theorem reroute_branch_witness :
    ∃ entity, env6q.getEntityByCCID msg6q.author = some entity ∧
      MessageToNote env6q "m7" = .ok
        { context := asContext, type := "Note",
          id := "https://" ++ env6q.fqdn ++ "/ap/note/" ++ msg6q.id,
          attributedTo := "https://" ++ env6q.fqdn ++ "/ap/acct/" ++ entity.id,
          content := stripImages "nice post",
          quoteUrl := (some "https://remote/note/9" : Option String).getD
            ("https://" ++ env6q.fqdn ++ "/ap/note/" ++ "src1"),
          toRecipients := [publicStream] } :=
  (reroute_branch env6q "m7" msg6q
      { schema := rerouteSchema,
        body := some { body := some "nice post", rerouteMessageId := some "src1" },
        signedAt := "2024-01-01T00:00:00Z" }
      { body := some "nice post", rerouteMessageId := some "src1" }
      "nice post" "src1" msg6src
      { schema := noteSchema, meta := some { apObjectRef := some "https://remote/note/9" } }
      { apObjectRef := some "https://remote/note/9" }
      rfl rfl rfl rfl rfl rfl rfl rfl rfl rfl).2 (by decide)

/-! ## List helper lemmas for the database model -/

theorem filter_nil_of {α : Type} (l : List α) (p : α → Bool)
    (h : ∀ x ∈ l, p x = false) : l.filter p = [] := by
  induction l with
  | nil => rfl
  | cons a t ih =>
    rw [List.filter_cons, if_neg (by simp [h a (by simp)]),
      ih (fun x hx => h x (by simp [hx]))]

theorem map_preserve {α : Type} (l : List α) (f : α → α)
    (h : ∀ x ∈ l, f x = x) : l.map f = l := by
  induction l with
  | nil => rfl
  | cons a t ih =>
    rw [List.map_cons, h a (by simp), ih (fun x hx => h x (by simp [hx]))]

theorem find?_eq_none_of_forall {α : Type} {l : List α} {p : α → Bool}
    (h : ∀ x ∈ l, p x = false) : l.find? p = none := by
  induction l with
  | nil => rfl
  | cons a t ih =>
    rw [List.find?_cons_of_neg _ (by simp [h a (by simp)])]
    exact ih (fun x hx => h x (by simp [hx]))

theorem find?_append_of_none {α : Type} {l₁ : List α} (l₂ : List α) {p : α → Bool}
    (h : l₁.find? p = none) : (l₁ ++ l₂).find? p = l₂.find? p := by
  induction l₁ with
  | nil => rfl
  | cons a t ih =>
    by_cases hpa : p a = true
    · rw [List.find?_cons_of_pos _ hpa] at h
      cases h
    · rw [List.find?_cons_of_neg _ hpa] at h
      rw [List.cons_append, List.find?_cons_of_neg _ hpa]
      exact ih h

/-! ## Cross-reference claim lemmas -/

theorem createRef_ok (db : DB) (r : ApObjectReference)
    (h : ∀ q ∈ db.objectRefs, ¬ q.apObjectID = r.apObjectID) :
    createApObjectReference db r = some { db with objectRefs := db.objectRefs ++ [r] } := by
  have hfalse : db.objectRefs.any (fun q => q.apObjectID = r.apObjectID) = false :=
    any_eq_false_of_forall (fun x hx => by simp [h x hx])
  unfold createApObjectReference
  rw [if_neg (by simp [hfalse])]

theorem createRef_dup (db : DB) (r : ApObjectReference)
    (q : ApObjectReference) (hq : q ∈ db.objectRefs) (hid : q.apObjectID = r.apObjectID) :
    createApObjectReference db r = none := by
  unfold createApObjectReference
  rw [if_pos (List.any_eq_true.mpr ⟨q, hq, by simp [hid]⟩)]

theorem updateRef_append (db : DB) (apID cc : String)
    (h : ∀ q ∈ db.objectRefs, ¬ q.apObjectID = apID) :
    updateApObjectReference { db with objectRefs := db.objectRefs ++ [⟨apID, ""⟩] } ⟨apID, cc⟩ =
      { db with objectRefs := db.objectRefs ++ [⟨apID, cc⟩] } := by
  unfold updateApObjectReference
  rw [if_pos (List.any_eq_true.mpr ⟨⟨apID, ""⟩, by simp, by simp⟩)]
  have hmap : (db.objectRefs ++ [(⟨apID, ""⟩ : ApObjectReference)]).map
      (fun q => if q.apObjectID = (⟨apID, cc⟩ : ApObjectReference).apObjectID then ⟨apID, cc⟩ else q) =
      db.objectRefs ++ [⟨apID, cc⟩] := by
    rw [List.map_append, map_preserve db.objectRefs _ (fun x hx => by simp [h x hx])]
    simp
  rw [show ({ db with objectRefs := db.objectRefs ++ [(⟨apID, ""⟩ : ApObjectReference)] } : DB).objectRefs
      = db.objectRefs ++ [(⟨apID, ""⟩ : ApObjectReference)] from rfl, hmap]

theorem refRows_append_one (db : DB) (apID cc : String)
    (h : ∀ q ∈ db.objectRefs, ¬ q.apObjectID = apID) :
    refRows { db with objectRefs := db.objectRefs ++ [⟨apID, cc⟩] } apID = 1 := by
  show ((db.objectRefs ++ [(⟨apID, cc⟩ : ApObjectReference)]).filter
      (fun r => r.apObjectID = apID)).length = 1
  rw [List.filter_append, filter_nil_of db.objectRefs _ (fun x hx => by simp [h x hx])]
  simp

theorem refRows_zero (db : DB) (apID : String)
    (h : ∀ q ∈ db.objectRefs, ¬ q.apObjectID = apID) :
    refRows db apID = 0 := by
  show (db.objectRefs.filter (fun r => r.apObjectID = apID)).length = 0
  rw [filter_nil_of db.objectRefs _ (fun x hx => by simp [h x hx])]
  rfl

/-! ## Inbox dispatch lemmas -/

theorem inbox_eq_like (env : Env) (db : DB) (pathID : String) (obj : InObject)
    (htype : obj.type = "Like") :
    inbox env db pathID obj = inboxLike env db obj := by
  unfold inbox
  rw [htype]
  simp only [String.reduceEq, reduceIte]

theorem inbox_eq_follow (env : Env) (db : DB) (pathID : String) (obj : InObject)
    (htype : obj.type = "Follow") :
    inbox env db pathID obj = inboxFollow env db pathID obj := by
  unfold inbox
  rw [htype]
  simp only [String.reduceEq, reduceIte]

theorem inbox_eq_delete (env : Env) (db : DB) (pathID : String) (obj : InObject)
    (htype : obj.type = "Delete") :
    inbox env db pathID obj = some (inboxDelete env db obj) := by
  unfold inbox
  rw [htype]
  simp only [String.reduceEq, reduceIte]

/-! ## Like branch lemmas -/

theorem inboxLikePost_ok (env : Env) (db1 : DB) (assoc : AssocObj) (apID : String)
    (hsign : env.signOk = true) (created : CCMsg)
    (hcr : env.postAssociation assoc = some created) :
    inboxLikePost env db1 assoc apID =
      ⟨200, "like accepted", updateApObjectReference db1 ⟨apID, created.id⟩,
        [.postAssociation assoc]⟩ := by
  unfold inboxLikePost
  simp only [hsign, hcr, if_true]

/-- Reduction of `inboxLike` to its tag dispatch, once the target message
is found, the cross-reference claim succeeds, and the entity and actor
resolve. -/
theorem inboxLike_run (env : Env) (db : DB) (obj : InObject) (s : String)
    (m : CCMsg) (ent : ApEntity) (person : Person)
    (hobj : obj.object = .str s)
    (hmsg : env.messageGet (replaceFirst s ("https://" ++ env.fqdn ++ "/ap/note/") "") = some m)
    (hnoref : ∀ r ∈ db.objectRefs, ¬ r.apObjectID = obj.id)
    (hent : env.getEntityByCCID m.author = some ent)
    (hperson : env.fetchPerson obj.actor = some person) :
    inboxLike env db obj =
      (let db1 : DB := { db with objectRefs := db.objectRefs ++ [⟨obj.id, ""⟩] }
       let targetID := replaceFirst s ("https://" ++ env.fqdn ++ "/ap/note/") ""
       match obj.tag with
       | none => some (inboxLikePost env db1 (likeAssocOf env obj person targetID) obj.id)
       | some [] => none
       | some (t :: _) =>
         match t.name.data with
         | [] => none
         | c :: _ =>
           if c = ':' then
             some (inboxLikePost env db1 (emojiAssocOf env obj person targetID t) obj.id)
           else
             some (inboxLikePost env db1 (likeAssocOf env obj person targetID) obj.id)) := by
  unfold inboxLike
  simp only [hobj, hmsg, createRef_ok db ⟨obj.id, ""⟩ hnoref, hent, hperson]

theorem inboxLike_dup (env : Env) (db : DB) (obj : InObject) (s : String) (m : CCMsg)
    (hobj : obj.object = .str s)
    (hmsg : env.messageGet (replaceFirst s ("https://" ++ env.fqdn ++ "/ap/note/") "") = some m)
    (hdup : createApObjectReference db ⟨obj.id, ""⟩ = none) :
    inboxLike env db obj = some ⟨200, "like already exists", db, []⟩ := by
  unfold inboxLike
  simp only [hobj, hmsg, hdup]

/-- Common conclusions of a successful first Like delivery followed by a
duplicate delivery of the same activity id. -/
theorem like_run_conclusions (env : Env) (db : DB) (pathID : String) (obj : InObject)
    (s : String) (m : CCMsg) (assoc : AssocObj) (created : CCMsg)
    (htype : obj.type = "Like")
    (hobj : obj.object = .str s)
    (hmsg : env.messageGet (replaceFirst s ("https://" ++ env.fqdn ++ "/ap/note/") "") = some m)
    (hnoref : ∀ r ∈ db.objectRefs, ¬ r.apObjectID = obj.id)
    (hsign : env.signOk = true)
    (hcr : env.postAssociation assoc = some created)
    (hrun : inboxLike env db obj =
      some (inboxLikePost env { db with objectRefs := db.objectRefs ++ [⟨obj.id, ""⟩] } assoc obj.id)) :
    ∃ r1 : InboxResult,
      inbox env db pathID obj = some r1 ∧
      r1.status = 200 ∧ r1.body = "like accepted" ∧
      r1.effects = [.postAssociation assoc] ∧
      countAssocPosts r1.effects = 1 ∧
      refRows r1.db obj.id = 1 ∧
      refRows db obj.id = 0 ∧
      inbox env r1.db pathID obj = some ⟨200, "like already exists", r1.db, []⟩ := by
  have hpostres := inboxLikePost_ok env
    { db with objectRefs := db.objectRefs ++ [⟨obj.id, ""⟩] } assoc obj.id hsign created hcr
  have hupd := updateRef_append db obj.id created.id hnoref
  refine ⟨⟨200, "like accepted",
      { db with objectRefs := db.objectRefs ++ [⟨obj.id, created.id⟩] },
      [.postAssociation assoc]⟩, ?_, rfl, rfl, rfl, rfl, ?_, ?_, ?_⟩
  · rw [inbox_eq_like env db pathID obj htype, hrun, hpostres, hupd]
  · exact refRows_append_one db obj.id created.id hnoref
  · exact refRows_zero db obj.id hnoref
  · rw [inbox_eq_like env _ pathID obj htype,
      inboxLike_dup env _ obj s m hobj hmsg
        (createRef_dup _ ⟨obj.id, ""⟩ ⟨obj.id, created.id⟩
          (List.mem_append_right _ (by simp)) rfl)]

/-! ## C2: Like uniqueness -/

/-- C2 (confirmed).  For a Like whose target message exists: the first
delivery claims the cross-reference row for the activity id (there was
none before, there is exactly one after) and posts exactly one
association; a second delivery of the same Like id fails the claim insert
and returns HTTP 200 with body "like already exists", with the database
unchanged and no further effects. -/
theorem like_uniqueness (env : Env) (db : DB) (pathID : String) (obj : InObject)
    (s : String) (m : CCMsg) (ent : ApEntity) (person : Person)
    (htype : obj.type = "Like")
    (hobj : obj.object = .str s)
    (hmsg : env.messageGet (replaceFirst s ("https://" ++ env.fqdn ++ "/ap/note/") "") = some m)
    (hnoref : ∀ r ∈ db.objectRefs, ¬ r.apObjectID = obj.id)
    (hent : env.getEntityByCCID m.author = some ent)
    (hperson : env.fetchPerson obj.actor = some person)
    (hsign : env.signOk = true)
    (hpost : ∀ a, (env.postAssociation a).isSome = true)
    (htag : obj.tag = none ∨ ∃ t ts, obj.tag = some (t :: ts) ∧ ¬ t.name.data = []) :
    ∃ r1 : InboxResult,
      inbox env db pathID obj = some r1 ∧
      r1.status = 200 ∧ r1.body = "like accepted" ∧
      countAssocPosts r1.effects = 1 ∧
      refRows r1.db obj.id = 1 ∧
      refRows db obj.id = 0 ∧
      inbox env r1.db pathID obj = some ⟨200, "like already exists", r1.db, []⟩ := by
  have hrun0 := inboxLike_run env db obj s m ent person hobj hmsg hnoref hent hperson
  rcases htag with htag | ⟨t, ts, htag, hname⟩
  · simp only [htag] at hrun0
    obtain ⟨created, hcr⟩ := Option.isSome_iff_exists.mp
      (hpost (likeAssocOf env obj person (replaceFirst s ("https://" ++ env.fqdn ++ "/ap/note/") "")))
    obtain ⟨r1, h1, h2, h3, _, h5, h6, h7, h8⟩ :=
      like_run_conclusions env db pathID obj s m _ created htype hobj hmsg hnoref hsign hcr hrun0
    exact ⟨r1, h1, h2, h3, h5, h6, h7, h8⟩
  · simp only [htag] at hrun0
    cases hc : t.name.data with
    | nil => exact absurd hc hname
    | cons c cs =>
      simp only [hc] at hrun0
      by_cases hcolon : c = ':'
      · rw [if_pos hcolon] at hrun0
        obtain ⟨created, hcr⟩ := Option.isSome_iff_exists.mp
          (hpost (emojiAssocOf env obj person (replaceFirst s ("https://" ++ env.fqdn ++ "/ap/note/") "") t))
        obtain ⟨r1, h1, h2, h3, _, h5, h6, h7, h8⟩ :=
          like_run_conclusions env db pathID obj s m _ created htype hobj hmsg hnoref hsign hcr hrun0
        exact ⟨r1, h1, h2, h3, h5, h6, h7, h8⟩
      · rw [if_neg hcolon] at hrun0
        obtain ⟨created, hcr⟩ := Option.isSome_iff_exists.mp
          (hpost (likeAssocOf env obj person (replaceFirst s ("https://" ++ env.fqdn ++ "/ap/note/") "")))
        obtain ⟨r1, h1, h2, h3, _, h5, h6, h7, h8⟩ :=
          like_run_conclusions env db pathID obj s m _ created htype hobj hmsg hnoref hsign hcr hrun0
        exact ⟨r1, h1, h2, h3, h5, h6, h7, h8⟩

def msgLike : CCMsg := { id := "t1", author := "CCalice" }

def entLike : ApEntity := { id := "alice", ccid := "CCalice" }

def personLike : Person :=
  { id := "https://remote/users/bob", inbox := "https://remote/inbox", name := "Bob" }

def envLike : Env :=
  { fqdn := "fq.dn", proxyCCID := "CCproxy",
    messageGet := fun mid => if mid = "t1" then some msgLike else none,
    getEntityByCCID := fun ccid => if ccid = "CCalice" then some entLike else none,
    fetchPerson := fun a => if a = "https://remote/users/bob" then some personLike else none,
    postAssociation := fun _ => some { id := "assoc1" } }

def objLike : InObject :=
  { type := "Like", id := "https://remote/like/1", actor := "https://remote/users/bob",
    object := .str "https://fq.dn/ap/note/t1", tag := none }

/-- C2 witness: the two-delivery scenario at a concrete Like. -/
theorem like_uniqueness_witness :
    ∃ r1 : InboxResult,
      inbox envLike {} "alice" objLike = some r1 ∧
      r1.status = 200 ∧ r1.body = "like accepted" ∧
      countAssocPosts r1.effects = 1 ∧
      refRows r1.db objLike.id = 1 ∧
      refRows ({} : DB) objLike.id = 0 ∧
      inbox envLike r1.db "alice" objLike = some ⟨200, "like already exists", r1.db, []⟩ :=
  like_uniqueness envLike {} "alice" objLike "https://fq.dn/ap/note/t1" msgLike entLike
    personLike rfl rfl rfl (by simp) rfl rfl rfl (fun _ => rfl) (Or.inl rfl)

/-! ## C8: Like tag dispatch -/

def objLikeEmptyTag : InObject :=
  { type := "Like", id := "https://remote/like/2", actor := "https://remote/users/bob",
    object := .str "https://fq.dn/ap/note/t1", tag := some [] }

/-- C8 counterexample.  A Like whose tag list is present but empty (JSON
`"tag": []`) makes the handler hit the out-of-range index
`object.Tag[0]` and panic (`none`), refuting the claimed totality for
an empty tag list. -/
theorem like_tag_counterexample :
    objLikeEmptyTag.tag = some [] ∧
    inbox envLike {} "alice" objLikeEmptyTag = none :=
  ⟨rfl, rfl⟩

/-- C8 (corrected).  Tag dispatch of the Like branch: if `object.tag` is
`nil` (absent) the built association uses the like schema; if the first
tag's name begins with `':'` it uses the emoji schema with shortcode
`tag[0].name`, imageUrl `tag[0].icon.url` and variant `tag[0].icon.url`;
if the first tag's name is non-empty and does not begin with `':'` it uses
the like schema.  But for a present-but-empty tag list, or a first tag
with an empty name, the handler panics (`none`) instead of being total. -/
theorem like_tag_dispatch (env : Env) (db : DB) (pathID : String) (obj : InObject)
    (s : String) (m : CCMsg) (ent : ApEntity) (person : Person)
    (htype : obj.type = "Like")
    (hobj : obj.object = .str s)
    (hmsg : env.messageGet (replaceFirst s ("https://" ++ env.fqdn ++ "/ap/note/") "") = some m)
    (hnoref : ∀ r ∈ db.objectRefs, ¬ r.apObjectID = obj.id)
    (hent : env.getEntityByCCID m.author = some ent)
    (hperson : env.fetchPerson obj.actor = some person)
    (hsign : env.signOk = true)
    (hpost : ∀ a, (env.postAssociation a).isSome = true) :
    match obj.tag with
    | none => ∃ r a, inbox env db pathID obj = some r ∧
        r.effects = [.postAssociation a] ∧ a.schema = likeAssocSchema
    | some [] => inbox env db pathID obj = none
    | some (t :: _) =>
      match t.name.data with
      | [] => inbox env db pathID obj = none
      | c :: _ =>
        if c = ':' then
          ∃ r a, inbox env db pathID obj = some r ∧ r.effects = [.postAssociation a] ∧
            a.schema = emojiAssocSchema ∧ a.shortcode = some t.name ∧
            a.imageUrl = some t.icon.url ∧ a.variant = t.icon.url
        else
          ∃ r a, inbox env db pathID obj = some r ∧ r.effects = [.postAssociation a] ∧
            a.schema = likeAssocSchema := by
  have hrun0 := inboxLike_run env db obj s m ent person hobj hmsg hnoref hent hperson
  split
  next htag =>
    simp only [htag] at hrun0
    obtain ⟨created, hcr⟩ := Option.isSome_iff_exists.mp
      (hpost (likeAssocOf env obj person (replaceFirst s ("https://" ++ env.fqdn ++ "/ap/note/") "")))
    obtain ⟨r1, h1, _, _, h4, _, _, _, _⟩ :=
      like_run_conclusions env db pathID obj s m _ created htype hobj hmsg hnoref hsign hcr hrun0
    exact ⟨r1, _, h1, h4, rfl⟩
  next htag =>
    simp only [htag] at hrun0
    rw [inbox_eq_like env db pathID obj htype, hrun0]
  next t ts htag =>
    simp only [htag] at hrun0
    split
    next hc =>
      simp only [hc] at hrun0
      rw [inbox_eq_like env db pathID obj htype, hrun0]
    next c cs hc =>
      simp only [hc] at hrun0
      split
      next hcolon =>
        rw [if_pos hcolon] at hrun0
        obtain ⟨created, hcr⟩ := Option.isSome_iff_exists.mp
          (hpost (emojiAssocOf env obj person
            (replaceFirst s ("https://" ++ env.fqdn ++ "/ap/note/") "") t))
        obtain ⟨r1, h1, _, _, h4, _, _, _, _⟩ :=
          like_run_conclusions env db pathID obj s m _ created htype hobj hmsg hnoref hsign hcr hrun0
        exact ⟨r1, _, h1, h4, rfl, rfl, rfl, rfl⟩
      next hcolon =>
        rw [if_neg hcolon] at hrun0
        obtain ⟨created, hcr⟩ := Option.isSome_iff_exists.mp
          (hpost (likeAssocOf env obj person
            (replaceFirst s ("https://" ++ env.fqdn ++ "/ap/note/") "")))
        obtain ⟨r1, h1, _, _, h4, _, _, _, _⟩ :=
          like_run_conclusions env db pathID obj s m _ created htype hobj hmsg hnoref hsign hcr hrun0
        exact ⟨r1, _, h1, h4, rfl⟩

def tagEmoji : ActTag :=
  { type := "Emoji", name := ":smile:",
    icon := { type := "Image", mediaType := "image/png", url := "https://e/i.png" } }

def objLikeEmoji : InObject :=
  { type := "Like", id := "https://remote/like/3", actor := "https://remote/users/bob",
    object := .str "https://fq.dn/ap/note/t1", tag := some [tagEmoji] }

/-- C8 witness: a Like whose first tag is `:smile:` with an icon builds an
emoji association carrying shortcode, imageUrl and variant. -/
theorem like_tag_dispatch_witness :
    ∃ r a, inbox envLike {} "alice" objLikeEmoji = some r ∧
      r.effects = [.postAssociation a] ∧
      a.schema = emojiAssocSchema ∧ a.shortcode = some ":smile:" ∧
      a.imageUrl = some "https://e/i.png" ∧ a.variant = "https://e/i.png" :=
  like_tag_dispatch envLike {} "alice" objLikeEmoji "https://fq.dn/ap/note/t1" msgLike
    entLike personLike rfl rfl rfl (by simp) rfl rfl rfl (fun _ => rfl)

/-! ## C1: Follow idempotence -/

/-- C1 (corrected).  Two deliveries of the same Follow activity leave
exactly one `ApFollower` row for the `(publisherUserID,
subscriberPersonURL)` pair, but the handler POSTs the `Accept` BEFORE its
duplicate check, so each of the two runs POSTs one Accept: two in total,
not one as claimed.  The duplicate run answers 200 "follow already
exists" without touching the database. -/
theorem follow_idempotence (env : Env) (db : DB) (pathID : String) (obj : InObject)
    (s : String) (requester : Person)
    (htype : obj.type = "Follow")
    (hpid : ¬ pathID = "")
    (hent : (env.getEntityByID pathID).isSome = true)
    (hreq : env.fetchPerson obj.actor = some requester)
    (hobj : obj.object = .str s)
    (hpost : env.postToInboxOk = true)
    (hnodup : getFollowerByTuple db (lastSlashComponent s) requester.id = none)
    (hnoid : ∀ f ∈ db.followers, ¬ f.id = obj.id) :
    ∃ r1 r2 : InboxResult,
      inbox env db pathID obj = some r1 ∧
      r1.body = "follow accepted" ∧
      countAccepts r1.effects = 1 ∧
      followerRows r1.db (lastSlashComponent s) requester.id = 1 ∧
      followerRows db (lastSlashComponent s) requester.id = 0 ∧
      inbox env r1.db pathID obj = some r2 ∧
      r2.body = "follow already exists" ∧
      r2.db = r1.db ∧
      countAccepts r2.effects = 1 := by
  obtain ⟨ent, hent'⟩ := Option.isSome_iff_exists.mp hent
  have hnodup' : db.followers.find?
      (fun f => f.publisherUserID = lastSlashComponent s && f.subscriberPersonURL = requester.id)
      = none := hnodup
  have hforall := List.find?_eq_none.mp hnodup'
  have hfalse : ∀ x ∈ db.followers,
      (decide (x.publisherUserID = lastSlashComponent s) &&
        decide (x.subscriberPersonURL = requester.id)) = false := by
    intro x hx
    cases hpx : (decide (x.publisherUserID = lastSlashComponent s) &&
        decide (x.subscriberPersonURL = requester.id)) with
    | false => rfl
    | true => exact absurd hpx (hforall x hx)
  have hsave : saveFollower db ⟨obj.id, requester.id, lastSlashComponent s, requester.inbox⟩ =
      some { db with followers :=
        db.followers ++ [⟨obj.id, requester.id, lastSlashComponent s, requester.inbox⟩] } := by
    unfold saveFollower
    rw [if_neg]
    simp only [Bool.not_eq_true]
    apply any_eq_false_of_forall
    intro x hx
    simp only [Bool.or_eq_false_iff]
    exact ⟨by simp [hnoid x hx], hfalse x hx⟩
  have hrun1 : inboxFollow env db pathID obj =
      some ⟨200, "follow accepted",
        { db with followers :=
          db.followers ++ [⟨obj.id, requester.id, lastSlashComponent s, requester.inbox⟩] },
        [Effect.postAccept requester.inbox
          ("https://" ++ env.fqdn ++ "/ap/acct/" ++ pathID ++ "/follows/"
            ++ env.pathEscape requester.id) obj.id]⟩ := by
    unfold inboxFollow
    rw [if_neg hpid]
    simp only [hent', hreq, hobj, hpost, if_true, hnodup, hsave]
  have hfound : getFollowerByTuple
      { db with followers :=
        db.followers ++ [⟨obj.id, requester.id, lastSlashComponent s, requester.inbox⟩] }
      (lastSlashComponent s) requester.id =
      some ⟨obj.id, requester.id, lastSlashComponent s, requester.inbox⟩ := by
    unfold getFollowerByTuple
    show (db.followers ++ [_]).find? _ = _
    rw [find?_append_of_none _ hnodup']
    rw [List.find?_cons_of_pos _ (by simp)]
  have hrun2 : inboxFollow env
      { db with followers :=
        db.followers ++ [⟨obj.id, requester.id, lastSlashComponent s, requester.inbox⟩] }
      pathID obj =
      some ⟨200, "follow already exists",
        { db with followers :=
          db.followers ++ [⟨obj.id, requester.id, lastSlashComponent s, requester.inbox⟩] },
        [Effect.postAccept requester.inbox
          ("https://" ++ env.fqdn ++ "/ap/acct/" ++ pathID ++ "/follows/"
            ++ env.pathEscape requester.id) obj.id]⟩ := by
    unfold inboxFollow
    rw [if_neg hpid]
    simp only [hent', hreq, hobj, hpost, if_true, hfound]
  refine ⟨⟨200, "follow accepted",
      { db with followers :=
        db.followers ++ [⟨obj.id, requester.id, lastSlashComponent s, requester.inbox⟩] },
      [Effect.postAccept requester.inbox
        ("https://" ++ env.fqdn ++ "/ap/acct/" ++ pathID ++ "/follows/"
          ++ env.pathEscape requester.id) obj.id]⟩,
    ⟨200, "follow already exists",
      { db with followers :=
        db.followers ++ [⟨obj.id, requester.id, lastSlashComponent s, requester.inbox⟩] },
      [Effect.postAccept requester.inbox
        ("https://" ++ env.fqdn ++ "/ap/acct/" ++ pathID ++ "/follows/"
          ++ env.pathEscape requester.id) obj.id]⟩,
    ?_, rfl, rfl, ?_, ?_, ?_, rfl, rfl, rfl⟩
  · rw [inbox_eq_follow env db pathID obj htype, hrun1]
  · show ((db.followers ++ [_]).filter _).length = 1
    rw [List.filter_append, filter_nil_of db.followers _ hfalse]
    simp
  · show (db.followers.filter _).length = 0
    rw [filter_nil_of db.followers _ hfalse]
    rfl
  · rw [inbox_eq_follow env _ pathID obj htype, hrun2]

def personC1 : Person :=
  { id := "https://remote/users/bob", inbox := "https://remote/inbox.json" }

def envC1 : Env :=
  { fqdn := "fq.dn",
    getEntityByID := fun i => if i = "alice" then some { id := "alice" } else none,
    fetchPerson := fun a => if a = "https://remote/users/bob" then some personC1 else none }

def objC1 : InObject :=
  { type := "Follow", id := "https://remote/follows/1", actor := "https://remote/users/bob",
    object := .str "https://fq.dn/ap/acct/alice" }

def followerC1 : ApFollower :=
  { id := "https://remote/follows/1", subscriberPersonURL := "https://remote/users/bob",
    publisherUserID := "alice", subscriberInbox := "https://remote/inbox.json" }

def acceptEffC1 : Effect :=
  .postAccept "https://remote/inbox.json"
    "https://fq.dn/ap/acct/alice/follows/https://remote/users/bob" "https://remote/follows/1"

def runC1a : InboxResult := ⟨200, "follow accepted", { followers := [followerC1] }, [acceptEffC1]⟩

def runC1b : InboxResult := ⟨200, "follow already exists", runC1a.db, [acceptEffC1]⟩

/-- C1 counterexample.  Delivering the same Follow twice yields one
`ApFollower` row but TWO Accept POSTs (one per run), refuting "exactly one
Accept across the two handler runs". -/
theorem follow_counterexample :
    inbox envC1 {} "alice" objC1 = some runC1a ∧
    inbox envC1 runC1a.db "alice" objC1 = some runC1b ∧
    followerRows runC1a.db "alice" "https://remote/users/bob" = 1 ∧
    countAccepts runC1a.effects + countAccepts runC1b.effects = 2 ∧
    ¬ (countAccepts runC1a.effects + countAccepts runC1b.effects = 1) :=
  ⟨rfl, rfl, rfl, rfl, by decide⟩

/-- C1 witness: the amended two-run scenario at a concrete Follow. -/
theorem follow_idempotence_witness :
    ∃ r1 r2 : InboxResult,
      inbox envC1 {} "alice" objC1 = some r1 ∧
      r1.body = "follow accepted" ∧
      countAccepts r1.effects = 1 ∧
      followerRows r1.db (lastSlashComponent "https://fq.dn/ap/acct/alice") personC1.id = 1 ∧
      followerRows ({} : DB) (lastSlashComponent "https://fq.dn/ap/acct/alice") personC1.id = 0 ∧
      inbox envC1 r1.db "alice" objC1 = some r2 ∧
      r2.body = "follow already exists" ∧
      r2.db = r1.db ∧
      countAccepts r2.effects = 1 :=
  follow_idempotence envC1 {} "alice" objC1 "https://fq.dn/ap/acct/alice" personC1
    rfl (by decide) rfl rfl rfl rfl rfl (by simp)

/-! ## C3: Delete round-trip -/

/-- C3 (corrected).  For a Delete whose object id has a stored
cross-reference, the handler deletes the bound CC message via the message
service and then the cross-reference row; when no cross-reference exists
it answers HTTP 200 with the body "Object Already Deleted" (not
"already deleted" as claimed) and changes nothing. -/
theorem delete_roundtrip (env : Env) (db : DB) (pathID : String) (obj : InObject)
    (m : ObjMap) (deleteID : String)
    (htype : obj.type = "Delete")
    (hobj : obj.object = .map m)
    (hid : m.idVal = some deleteID) :
    (getApObjectReferenceByApObjectID db deleteID = none →
      inbox env db pathID obj = some ⟨200, "Object Already Deleted", db, []⟩) ∧
    (∀ ref, getApObjectReferenceByApObjectID db deleteID = some ref →
      env.messageDeleteOk = true →
      inbox env db pathID obj =
        some ⟨200, "Deleted", deleteApObjectReference db ref.apObjectID,
          [.deleteMessage ref.ccObjectID]⟩) := by
  constructor
  · intro h
    rw [inbox_eq_delete env db pathID obj htype]
    unfold inboxDelete
    simp only [hobj, hid, h]
  · intro ref h hok
    rw [inbox_eq_delete env db pathID obj htype]
    unfold inboxDelete
    simp only [hobj, hid, h, hok, if_true]

def objC3 : InObject :=
  { type := "Delete", object := .map { idVal := some "https://remote/note/404" } }

/-- C3 counterexample.  The missing-reference response body is
"Object Already Deleted", not the claimed "already deleted". -/
theorem delete_counterexample :
    inbox {} {} "" objC3 = some ⟨200, "Object Already Deleted", {}, []⟩ ∧
    ¬ (("Object Already Deleted" : String) = "already deleted") :=
  ⟨rfl, by decide⟩

def dbC3 : DB := { objectRefs := [⟨"https://remote/note/1", "cc42"⟩] }

def objC3w : InObject :=
  { type := "Delete", object := .map { idVal := some "https://remote/note/1" } }

/-- C3 witness: with a stored cross-reference the handler deletes the CC
message and the cross-reference row. -/
theorem delete_roundtrip_witness :
    inbox {} dbC3 "" objC3w =
      some ⟨200, "Deleted", { objectRefs := [] }, [.deleteMessage "cc42"]⟩ :=
  (delete_roundtrip {} dbC3 "" objC3w { idVal := some "https://remote/note/1" }
    "https://remote/note/1" rfl rfl rfl).2 ⟨"https://remote/note/1", "cc42"⟩ rfl rfl

end CCAP
